import Mathlib

/-!
Verification of the LeVe Coach computation engine (`engine.js`) against its
natural-language specification.

The JavaScript source is shallowly embedded: JS numbers are modelled as `ℚ`
(every quantity the engine manipulates is produced by finite decimal input and
the four arithmetic operations plus `Math.floor`/`Math.round`, which are exact
on rationals), repetition counts as `ℤ`, nullable values as `Option`, and the
string enumerations `"GREEN"/"YELLOW"/"RED"` and the day types as inductive
types.  `Math.round x` is `⌊x + 1/2⌋` (JS rounds half-ups toward +∞) and
`Math.floor` of an integer quotient is Euclidean division by the (positive)
divisor.  Dates (ISO strings at UTC midnight) are modelled by their day number,
so a difference of two dates in days is integer subtraction.
-/

namespace LeVe

/-- Readiness classes (`READINESS_CLASSES` keys in engine.js). -/
inductive RClass where
  | GREEN
  | YELLOW
  | RED
deriving DecidableEq, Repr, Fintype

/-- Day types used by the engine (`DAY_TYPE_MULTIPLIERS` keys). -/
inductive DayType where
  | heavy
  | volume
  | speed
  | accessory
  | rest
deriving DecidableEq, Repr, Fintype

open RClass DayType

/-- Result of `combineReadiness` (engine.js:192-227): the combined class, the
cap level and the three channel classifications that were fused (a channel is
`none` when inactive, i.e. its JS `class` field is `null`). -/
structure Readiness where
  combined : RClass
  capLevel : ℕ
  velocity : Option RClass
  hrv : Option RClass
  vara : Option RClass
deriving DecidableEq, Repr

/-- `combineReadiness(velocityR, hrvR, varaR)` from engine.js:192-227.
Each argument is the channel's `class` field (`null` ↦ `none`). -/
def combineReadiness (velocityR hrvR varaR : Option RClass) : Readiness :=
  let active := [velocityR, hrvR, varaR].filterMap id
  if active.length = 0 then
    ⟨GREEN, 0, velocityR, hrvR, varaR⟩
  else
    let countGREEN := (active.filter (fun c => c = GREEN)).length
    let countYELLOW := (active.filter (fun c => c = YELLOW)).length
    let countRED := (active.filter (fun c => c = RED)).length
    -- 2/3 rule
    let base : RClass :=
      if countGREEN ≥ 2 then GREEN
      else if countRED ≥ 2 ∨ (countRED ≥ 1 ∧ countYELLOW ≥ 1) then RED
      else YELLOW
    -- Velocity VETO
    let combined : RClass :=
      if velocityR = some RED then
        let escalated := if base = GREEN then YELLOW else base
        let othersYellowOrRed :=
          ([hrvR, varaR].filter (fun c => c = some YELLOW ∨ c = some RED)).length
        if othersYellowOrRed ≥ 1 then RED else escalated
      else base
    let capLevel : ℕ := if combined = GREEN then 0 else if combined = YELLOW then 1 else 2
    ⟨combined, capLevel, velocityR, hrvR, varaR⟩

/-- The fusion rule exactly as the specification states it (spec §4.3 steps
1-5), written independently of `combineReadiness` for comparison. -/
def specFusion (velocityR hrvR varaR : Option RClass) : RClass × ℕ :=
  let active := [velocityR, hrvR, varaR].filterMap id
  if active.length = 0 then (GREEN, 0)
  else
    let nG := (active.filter (fun c => c = GREEN)).length
    let nY := (active.filter (fun c => c = YELLOW)).length
    let nR := (active.filter (fun c => c = RED)).length
    let base : RClass :=
      if nG ≥ 2 then GREEN
      else if nR ≥ 2 ∨ (nR ≥ 1 ∧ nY ≥ 1) then RED
      else YELLOW
    let afterVeto : RClass :=
      if velocityR = some RED then
        -- the combined class can never end as GREEN; and if at least one of
        -- the other two active channels is YELLOW or RED, force RED
        if ([hrvR, varaR].filterMap id).any (fun c => c = YELLOW ∨ c = RED) then RED
        else if base = GREEN then YELLOW else base
      else base
    (afterVeto, if afterVeto = GREEN then 0 else if afterVeto = YELLOW then 1 else 2)

/-- `classifyReadinessZ(z)` from engine.js:132-136. -/
def classifyReadinessZ (z : ℚ) : RClass :=
  if z ≥ -0.5 then GREEN
  else if z ≥ -1.0 then YELLOW
  else RED

end LeVe

namespace LeVe

/-- The readiness-cap step of `recommend` (engine.js:732-748) acting on the
post-clamp adjustment and the current day type. -/
structure CapResult where
  deltaPct : ℚ
  dayType : DayType
deriving DecidableEq, Repr

/-- Step 10 of `recommend` (engine.js:732-748): apply the readiness cap to the
clamped `deltaPct`, downgrading a heavy day to volume on RED. -/
def applyReadinessCap (capLevel : ℕ) (deltaPct : ℚ) (dayType : DayType) : CapResult :=
  if capLevel = 2 then
    -- RED: no increase, heavy → volume
    { deltaPct := min deltaPct 0
      dayType := if dayType = DayType.heavy then DayType.volume else dayType }
  else if capLevel = 1 then
    -- YELLOW: halve adjustment
    { deltaPct := deltaPct * 0.5, dayType := dayType }
  else
    { deltaPct := deltaPct, dayType := dayType }

end LeVe

namespace LeVe

/-- C1: For every triple of channel results, `combineReadiness` follows the fusion
rule of the specification (zero active channels → GREEN cap 0; 2/3 base rule;
velocity veto escalating GREEN→YELLOW and forcing RED when another active
channel is YELLOW/RED; capLevel 0/1/2 for GREEN/YELLOW/RED), and in particular:
velocity RED with the other two GREEN gives YELLOW; velocity RED with one other
YELLOW gives RED; three GREEN gives GREEN with capLevel 0; two RED gives RED
with capLevel 2. -/
theorem combineReadiness_follows_fusion_rule :
    (∀ v h r : Option RClass,
      ((combineReadiness v h r).combined, (combineReadiness v h r).capLevel)
        = specFusion v h r)
    ∧ (combineReadiness (some RClass.RED) (some RClass.GREEN) (some RClass.GREEN)).combined
        = RClass.YELLOW
    ∧ (combineReadiness (some RClass.RED) (some RClass.YELLOW) (some RClass.GREEN)).combined
        = RClass.RED
    ∧ (combineReadiness (some RClass.GREEN) (some RClass.GREEN) (some RClass.GREEN)).combined
        = RClass.GREEN
    ∧ (combineReadiness (some RClass.GREEN) (some RClass.GREEN) (some RClass.GREEN)).capLevel
        = 0
    ∧ (combineReadiness (some RClass.RED) (some RClass.RED) (some RClass.GREEN)).combined
        = RClass.RED
    ∧ (combineReadiness (some RClass.RED) (some RClass.RED) (some RClass.GREEN)).capLevel
        = 2 := by
  refine ⟨?_, by decide, by decide, by decide, by decide, by decide, by decide⟩
  decide

/-- `Math.round` in JavaScript: the nearest integer, halves rounding toward
+∞. -/
def jsRound (x : ℚ) : ℤ := ⌊x + 1 / 2⌋

/-- `roundToHalf(value)` from engine.js:70-72: `Math.round(value * 2) / 2`. -/
def roundToHalf (value : ℚ) : ℚ := (jsRound (value * 2) : ℚ) / 2

/-- `clamp(value, min, max)` from engine.js:66-68:
`Math.max(min, Math.min(max, value))`. -/
def clamp (value lo hi : ℚ) : ℚ := max lo (min hi value)

/-- `e1rmSystem(bodyweightKg, externalLoadKg, reps, vara)` from engine.js:82-87.
Repetition counts are integers; `vara ?? 2` is the JS null-coalescing default. -/
def e1rmSystem (bodyweightKg externalLoadKg : ℚ) (reps : ℤ) (vara : Option ℚ) : Option ℚ :=
  let systemLoad := bodyweightKg + externalLoadKg
  if systemLoad ≤ 0 ∨ reps < 1 then none
  else
    let effectiveReps : ℚ := (reps : ℚ) + vara.getD 2
    some (systemLoad * (1 + effectiveReps / 30))

/-- `e1rmAccessory(weightKg, reps)` from engine.js:102-105. -/
def e1rmAccessory (weightKg : ℚ) (reps : ℤ) : Option ℚ :=
  if weightKg ≤ 0 ∨ reps < 1 then none
  else some (weightKg * (1 + (reps : ℚ) / 30))

/-- Step 11 of `recommend` (engine.js:760-768): target external load from the
current system estimated max, the day's rep/effort targets, the post-cap
adjustment and bodyweight. -/
def computeTargetExternalLoad (e1rmSys : Option ℚ) (targetReps targetVx : ℤ)
    (deltaPct bodyweightKg : ℚ) : Option ℚ :=
  match e1rmSys with
  | none => none
  | some m =>
    let effectiveReps : ℚ := (targetReps : ℚ) + (targetVx : ℚ)
    let targetSystemLoad := m / (1 + effectiveReps / 30)
    let rawExternal := targetSystemLoad * (1 + deltaPct) - bodyweightKg
    some (roundToHalf (max 0 rawExternal))

/-- `breakAnalysis(lastSessionDateISO, todayDateISO)` from engine.js:369-400.
Dates are modelled by their day number (ISO dates at UTC midnight, so the JS
millisecond arithmetic `Math.floor((today - last) / 86400000)` is exactly the
integer difference of day numbers). -/
structure BreakInfo where
  breakDays : Option ℤ
  modifier : ℚ
  forcedDayType : Option DayType
  message : Option String
deriving DecidableEq, Repr

/-- `breakAnalysis` (engine.js:369-400); `lastSessionDay = none` models a
missing `lastSessionDateISO`. -/
def breakAnalysis (lastSessionDay : Option ℤ) (todayDay : ℤ) : BreakInfo :=
  match lastSessionDay with
  | none => ⟨none, 0, none, none⟩
  | some last =>
    let breakDays := todayDay - last
    if breakDays < 7 then ⟨some breakDays, 0, none, none⟩
    else if breakDays < 14 then
      ⟨some breakDays, -0.05, none, some "Viikon tauko — aloitetaan hieman kevyemmin"⟩
    else if breakDays < 28 then
      ⟨some breakDays, -0.10, some DayType.volume, some "2 viikon tauko — volume-päivä ensin"⟩
    else
      ⟨some breakDays, -0.15, some DayType.volume,
        some "Pitkä tauko — aloitetaan konservatiivisesti, 1-2 viikossa normaaliin"⟩

/-- `mesocycleBreakReset(mesocycle, skippedWeeks)` from engine.js:405-410
(the mesocycle argument is unused by the JS function). -/
def mesocycleBreakReset (skippedWeeks : ℤ) : Bool × Option String :=
  if skippedWeeks ≥ 2 then
    (true, some "2+ viikkoa skipattiin → mesosykli nollattu viikkoon 1")
  else (false, none)

/-- The cycle-reset check of `recommend` (engine.js:650-668): inside the
`modifier ≠ 0` branch, when `breakDays ≥ 14`, `skippedWeeks = ⌊breakDays / 7⌋`
is fed to `mesocycleBreakReset`.  JS `Math.floor` of a division by the positive
constant 7 is Euclidean division. -/
def cycleResetFlagged (lastSessionDay : Option ℤ) (todayDay : ℤ) : Bool :=
  let breakInfo := breakAnalysis lastSessionDay todayDay
  if breakInfo.modifier ≠ 0 then
    match breakInfo.breakDays with
    | some n => if n ≥ 14 then (mesocycleBreakReset (n / 7)).1 else false
    | none => false
  else false

/-- A recorded set (the fields of the stored set objects that engine.js
reads).  All numeric fields are nullable in the store. -/
structure SetRecord where
  movementId : String
  setRole : String
  timestamp : String
  externalLoadKg : Option ℚ
  reps : Option ℤ
  targetReps : Option ℤ
  actualVx : Option ℚ
  targetVx : Option ℚ
deriving DecidableEq, Repr

/-- JS `a || b` on a nullable integer: falls through on `null`/`undefined`
and on 0 (JS falsiness). -/
def jsOrInt (a : Option ℤ) (b : ℤ) : ℤ :=
  match a with
  | some x => if x = 0 then b else x
  | none => b

/-- JS `a || b` on a nullable rational: falls through on `null`/`undefined`
and on 0 (JS falsiness). -/
def jsOrQ (a : Option ℚ) (b : ℚ) : ℚ :=
  match a with
  | some x => if x = 0 then b else x
  | none => b

/-- The per-set estimated-max computation of `recommend` step 4
(engine.js:687-695): `vara = s.actualVx ?? s.targetVx ?? 2` and
`e1rmSystem(bodyweightKg, s.externalLoadKg || 0, s.reps || s.targetReps || 3,
vara)`. -/
def setE1RMEstimate (bodyweightKg : ℚ) (s : SetRecord) : Option ℚ :=
  let vara : ℚ := (s.actualVx <|> s.targetVx).getD 2
  e1rmSystem bodyweightKg (jsOrQ s.externalLoadKg 0)
    (jsOrInt s.reps (jsOrInt s.targetReps 3)) (some vara)

/-- Slot roles in a day plan (engine.js day-plan slots use the strings
"primary" and "accessory"). -/
inductive Role where
  | primary
  | accessory
deriving DecidableEq, Repr

/-- One slot of a day plan (engine.js `generateDefaultDayPlan` and the
mesocycle week plans). -/
structure Slot where
  role : Role
  category : String
  defaultMovementName : String
  sets : ℤ
  reps : ℤ
  targetVx : Option ℤ
deriving DecidableEq, Repr

/-- Step 14 of `recommend` (engine.js:792-804): the accessory-volume cap is
computed only under `capLevel === 2`, and requires every channel that carries a
classification to be RED or YELLOW (`filter(c => c && c.class).every(...)`). -/
def accessoryCapActive (readiness : Readiness) : Bool :=
  if readiness.capLevel = 2 then
    ([readiness.velocity, readiness.hrv, readiness.vara].filterMap id).all
      (fun c => c = RClass.RED ∨ c = RClass.YELLOW)
  else false

/-- The accessory-cap slot transformation of `recommend` (engine.js:813-821):
`sets := Math.max(2, Math.round(s.sets * 0.7))` on accessory slots, others
untouched. -/
def capSlot (s : Slot) : Slot :=
  if s.role = Role.accessory then
    { s with sets := max 2 (jsRound ((s.sets : ℚ) * 0.7)) }
  else s

/-- Applying the accessory cap to a day plan maps `capSlot` over its slots
(engine.js:815). -/
def applyAccessoryCap (slots : List Slot) : List Slot := slots.map capSlot

/-- Stable insertion used to model `Array.prototype.sort` (stable since
ES2019): each element is inserted after every element that compares
less-or-equal. -/
def jsSortInsert (le : α → α → Bool) (x : α) : List α → List α
  | [] => [x]
  | y :: ys => if le y x then y :: jsSortInsert le x ys else x :: y :: ys

/-- Stable sort by a boolean comparison, modelling `Array.prototype.sort`. -/
def jsSort (le : α → α → Bool) (l : List α) : List α :=
  l.foldl (fun acc x => jsSortInsert le x acc) []

/-- `Array.prototype.slice(-n)`: the last n elements (the whole list when it
is shorter). -/
def takeLast (n : ℕ) (l : List α) : List α := l.drop (l.length - n)

/-- JS `a || b` on a nullable string: falls through on `null`/`undefined` and
on the empty string (JS falsiness). -/
def jsOrStr (a : Option String) (b : String) : String :=
  match a with
  | some x => if x = "" then b else x
  | none => b

/-- `median(arr)` from engine.js:39-44 (0 on empty input; JS sorts with the
numeric comparator `(a, b) => a - b`). -/
def median (arr : List ℚ) : ℚ :=
  if arr.length = 0 then 0
  else
    let sorted := jsSort (fun a b => decide (a ≤ b)) arr
    let mid := sorted.length / 2
    if sorted.length % 2 = 1 then sorted.getD mid 0
    else (sorted.getD (mid - 1) 0 + sorted.getD mid 0) / 2

/-- `avg(arr)` from engine.js:61-64. -/
def avg (arr : List ℚ) : ℚ :=
  if arr.length = 0 then 0 else arr.sum / (arr.length : ℚ)

/-- `DAY_TYPE_MULTIPLIERS` from engine.js:19-25 (total over the day types, so
the `?? 1.0` fallback of engine.js:709 never fires). -/
def dayTypeMultiplier : DayType → ℚ
  | DayType.heavy => 1.0
  | DayType.volume => 0.6
  | DayType.speed => 0.4
  | DayType.accessory => 0.0
  | DayType.rest => 0

/-- The `sets` field of a day-type recipe: a number or an array. -/
inductive SetsSpec where
  | single (n : ℤ)
  | multi (ns : List ℤ)
deriving DecidableEq, Repr

/-- One entry of `DAY_TYPE_SET_RECIPES` (engine.js:27-31). -/
structure Recipe where
  sets : SetsSpec
  repsRange : List ℤ
  targetVxRange : List ℤ
deriving DecidableEq, Repr

/-- `DAY_TYPE_SET_RECIPES` from engine.js:27-31. -/
def dayTypeSetRecipes : DayType → Option Recipe
  | DayType.heavy => some ⟨SetsSpec.single 3, [2, 3], [1, 2]⟩
  | DayType.volume => some ⟨SetsSpec.multi [4, 5], [4, 6], [2, 3]⟩
  | DayType.speed => some ⟨SetsSpec.multi [4, 5], [2, 2], [4, 5]⟩
  | _ => none

/-- A week definition of a mesocycle (fields engine.js reads:
`week`, `label`, `deltaPctBase`, `heavyReps`, `heavyTargetVx`). -/
structure WeekDef where
  week : ℤ
  label : String
  deltaPctBase : ℚ
  heavyReps : ℤ
  heavyTargetVx : ℤ
deriving DecidableEq, Repr

/-- A planned day inside a mesocycle week plan (`dayOfWeek` is `null` on the
synthesized default plan). -/
structure DayPlan where
  dayOfWeek : Option ℤ
  dayType : DayType
  slots : List Slot
deriving DecidableEq, Repr

/-- A week plan of a mesocycle. -/
structure WeekPlan where
  week : ℤ
  days : List DayPlan
deriving DecidableEq, Repr

/-- A mesocycle (fields engine.js reads; `startDateISO` is modelled by its day
number). -/
structure Mesocycle where
  mesocycleId : String
  startDay : ℤ
  weekCount : ℤ
  weekDefs : List WeekDef
  weekPlans : List WeekPlan
deriving DecidableEq, Repr

/-- `getMesocycleWeek(mesocycle, dateISO)` from engine.js:236-245 (dates as
day numbers; `Math.floor(diffDays / 7)` on a non-negative numerator is
Euclidean division). -/
def getMesocycleWeek (m : Mesocycle) (day : ℤ) : Option ℤ :=
  let diffDays := day - m.startDay
  if diffDays < 0 then none
  else
    let weekNum := diffDays / 7 + 1
    if weekNum > m.weekCount then none else some weekNum

/-- `getWeekDef(mesocycle, weekNum)` from engine.js:250-253. -/
def getWeekDef (m : Mesocycle) (weekNum : ℤ) : Option WeekDef :=
  m.weekDefs.find? (fun w => w.week == weekNum)

/-- `getTodayPlan(mesocycle, weekNum, dayOfWeek)` from engine.js:260-279:
exact weekday match, else the nearest training day by minimum circular
weekday distance (first strictly smaller distance wins, as in the JS loop). -/
def getTodayPlan (m : Mesocycle) (weekNum dayOfWeek : ℤ) : Option DayPlan :=
  match m.weekPlans.find? (fun w => w.week == weekNum) with
  | none => none
  | some weekPlan =>
    if weekPlan.days.isEmpty then none
    else
      match weekPlan.days.find? (fun d => d.dayOfWeek == some dayOfWeek) with
      | some exact => some exact
      | none =>
        (weekPlan.days.foldl (fun best d =>
          let dist := |d.dayOfWeek.getD 0 - dayOfWeek|
          let wrapDist := min dist (7 - dist)
          match best with
          | none => some (d, wrapDist)
          | some (b, bestDist) =>
            if wrapDist < bestDist then some (d, wrapDist) else some (b, bestDist))
          none).map Prod.fst

/-- `varaTrendCorrection(recentTopSets, maxCorrection = 0.015)` from
engine.js:349-363. -/
def varaTrendCorrection (recentTopSets : List SetRecord) (maxCorrection : ℚ := 0.015) : ℚ :=
  let withVara := takeLast 6
    (recentTopSets.filter (fun s => s.actualVx ≠ none ∧ s.targetVx ≠ none))
  if withVara.length < 4 then 0
  else
    let overshoots := withVara.map (fun s => s.targetVx.getD 0 - s.actualVx.getD 0)
    let meanOvr := avg overshoots
    if meanOvr > 0.5 then clamp (meanOvr * 0.005) 0 maxCorrection
    else if meanOvr < -0.5 then clamp (meanOvr * 0.005) (-maxCorrection) 0
    else 0

/-- Result of `varaFeedback` (engine.js:326-344); `fbType` embeds the JS
field `type`. -/
structure VaraFB where
  suggestion : Option String
  fbType : Option String
deriving DecidableEq, Repr

/-- `varaFeedback(recentSets)` from engine.js:326-344. -/
def varaFeedback (recentSets : List SetRecord) : VaraFB :=
  let withVara := recentSets.filter
    (fun s => s.actualVx ≠ none ∧ s.targetVx ≠ none)
  if withVara.length < 3 then ⟨none, none⟩
  else
    let last3 := takeLast 3 withVara
    let allTooEasy := last3.all (fun s => s.actualVx.getD 0 > s.targetVx.getD 0 + 1)
    let tooHard :=
      (last3.filter (fun s => s.actualVx.getD 0 < s.targetVx.getD 0 - 1)).length ≥ 2
    if allTooEasy then ⟨some "Kuorma liian kevyt, harkitse +1-2 kg", some "too_easy"⟩
    else if tooHard then ⟨some "Kuorma liian raskas, harkitse -1-2 kg", some "too_hard"⟩
    else ⟨none, none⟩

/-- `generateDefaultDayPlan(dayType, weekDef, accessoryCapActive)` from
engine.js:560-590 (the third parameter is unused by the JS function too). -/
def generateDefaultDayPlan (dayType : DayType) (weekDef : Option WeekDef)
    (capActive : Bool) : DayPlan :=
  let _ := capActive
  let primaryReps := jsOrInt (weekDef.map (fun w => w.heavyReps))
    (if dayType = DayType.volume then 5 else if dayType = DayType.speed then 2 else 3)
  let primaryVx := jsOrInt (weekDef.map (fun w => w.heavyTargetVx))
    (if dayType = DayType.volume then 3 else if dayType = DayType.speed then 4 else 2)
  let primarySets : ℤ :=
    if dayType = DayType.volume then 5 else if dayType = DayType.speed then 4 else 3
  let primarySlot : Slot :=
    ⟨Role.primary, "vertikaaliveto", "Lisäpainoleuanveto", primarySets, primaryReps,
      some primaryVx⟩
  let accessories : List Slot :=
    if dayType = DayType.heavy then
      [⟨Role.accessory, "horisontaalityöntö", "Penkkipunnerrus", 4, 6, some 3⟩,
       ⟨Role.accessory, "horisontaaliveto", "Penkkiveto", 3, 8, some 3⟩,
       ⟨Role.accessory, "hauisfleksio", "Hauiskääntö tanko", 3, 10, none⟩]
    else if dayType = DayType.volume then
      [⟨Role.accessory, "vertikaalityöntö", "Pystypunnerrus", 4, 8, some 3⟩,
       ⟨Role.accessory, "vertikaaliveto", "Ylätalja", 3, 10, some 3⟩,
       ⟨Role.accessory, "ojentajaekstensio", "Tricep pushdown", 3, 12, none⟩]
    else if dayType = DayType.speed then
      [⟨Role.accessory, "horisontaaliveto", "Alatalja", 3, 10, some 4⟩,
       ⟨Role.accessory, "hauisfleksio", "Hammer curl", 2, 10, none⟩]
    else []
  ⟨none, dayType, primarySlot :: accessories⟩

/-- Modelled from the spec: `createDefaultMesocycle` lives in data.js, which
is not among the staged source files (only engine.js imports it).  Spec §3 and
§4.4: a fresh 4-week cycle anchored at the current date, split into the four
phases with base adjustment coefficients 0, +2.5%, +5%, −25% (labels from the
repository README: Adaptaatio → Loading → Overreach → Deload), reference
targets 3 reps at effort-distance 2; the cycle identifier is freshly
generated (modelled by the caller passing it in). -/
def createDefaultMesocycle (startDay : ℤ) (freshId : String) : Mesocycle :=
  { mesocycleId := freshId
    startDay := startDay
    weekCount := 4
    weekDefs :=
      [⟨1, "Adaptaatio", 0, 3, 2⟩, ⟨2, "Loading", 0.025, 3, 2⟩,
       ⟨3, "Overreach", 0.05, 3, 2⟩, ⟨4, "Deload", -0.25, 3, 2⟩]
    weekPlans := [] }

/-- `new Date(dateISO).getDay()` for a day number (1970-01-01 was a
Thursday, weekday 4). -/
def jsGetDay (d : ℤ) : ℤ := (d + 4) % 7

/-- A value inside a decision-trace `before`/`after` object.  Numbers are kept
as exact rationals: the JS code formats some of them (`toFixed`, percent
strings) but formatting is a pure function of the number, so equality of the
rationals gives equality of the rendered strings. -/
inductive JVal where
  | num (q : ℚ)
  | str (s : String)
  | dayT (d : DayType)
  | nullv
deriving DecidableEq, Repr

/-- A trace `before`/`after` state: the JS object literal as a field list. -/
abbrev TraceObj := List (String × JVal)

/-- The rationale (`why`) of one trace entry, as a tagged variant carrying the
data the JS template string interpolates (rendering is deterministic). -/
inductive Why where
  | msg (s : String)
  | phase (weekNum : ℤ) (label : Option String)
  | e1rmFromSets (n : ℕ)
  | deltaRaw (base mult : ℚ)
  | varaTrend (corr : ℚ)
  | breakMod (modifier : ℚ)
  | targetLoad (load : Option ℚ)
deriving DecidableEq, Repr

/-- A trace entry before identifier materialization: `idIdx` is the position
of this entry's `uid()` call in the run's identifier stream. -/
structure TraceCore where
  idIdx : ℕ
  ruleId : String
  before : TraceObj
  after : TraceObj
  why : Why
deriving DecidableEq, Repr

/-- A materialized decision-trace entry (engine.js:616-618): `traceId` is the
freshly generated identifier, `recId` is back-filled with the
recommendation's identifier (engine.js:849). -/
structure Trace where
  traceId : String
  recId : Option String
  ruleId : String
  before : TraceObj
  after : TraceObj
  why : Why
deriving DecidableEq, Repr

/-- The identifier-generation state threaded through `recommend`: `k` is the
index of the next `uid()` call, `traces` the entries pushed so far. -/
structure TB where
  k : ℕ
  traces : List TraceCore
deriving DecidableEq, Repr

/-- `trace(ruleId, before, after, why)` from engine.js:616-618: one `uid()`
call for the entry's `traceId`, entry appended in order. -/
def pushTrace (st : TB) (ruleId : String) (before after : TraceObj) (why : Why) : TB :=
  ⟨st.k + 1, st.traces ++ [⟨st.k, ruleId, before, after, why⟩]⟩

/-- A reference to an identifier: freshly drawn from the run's `uid()` stream
at index k, or carried over from the inputs. -/
inductive IdRef where
  | fresh (k : ℕ)
  | given (s : String)
deriving DecidableEq, Repr

/-- `Option ℚ` rendered into a trace object (`undefined`/`null` ↦ null). -/
def optNumJ : Option ℚ → JVal
  | some q => JVal.num q
  | none => JVal.nullv

/-- The settings fields `recommend` reads (engine.js:611-612, 729). -/
structure Settings where
  bodyweightKg : Option ℚ
  maxDelta : Option ℚ
deriving DecidableEq, Repr

/-- The inputs of one `recommend` run (engine.js:610-614, 621, 646, 672-673,
705).  Sessions are represented by their `dateISO` day number, the only field
`recommend` reads from them.  `dryRun` suppresses the persistence step
(engine.js:852-870), which is an external collaborator and outside this
model. -/
structure RecommendOptions where
  settings : Settings
  bodyweightKg : Option ℚ
  dateISO : ℤ
  mesocycle : Mesocycle
  sessions : List ℤ
  allSets : List SetRecord
  primaryMovementId : Option String
  readiness : Option Readiness
  dayType : Option DayType
  dryRun : Bool

/-- The recommendation object built by `recommend` (engine.js:824-846), with
identifiers still symbolic (`recIdIdx`, `IdRef`): `uid()` is the only
non-input-determined value in the run, modelled as an ambient identifier
stream indexed by call order. -/
structure RecCore where
  recIdIdx : ℕ
  dateISO : ℤ
  mesocycleId : IdRef
  weekNum : ℤ
  weekLabel : String
  dayType : DayType
  targetExternalLoad : Option ℚ
  targetReps : ℤ
  targetVx : ℤ
  setCount : ℤ
  deltaPct : ℚ
  capLevel : ℕ
  readiness : Readiness
  e1rmSystem : Option ℚ
  e1rmExternal : Option ℚ
  bodyweightKg : ℚ
  varaFeedback : VaraFB
  breakInfo : Option BreakInfo
  accessoryCapActive : Bool
  dayPlan : DayPlan
  traces : List TraceCore

/-- The body of `recommend(options)` (engine.js:610-873) with all inputs
provided in `options` (the claim compares runs on identical given inputs, so
the `await` store-read fallbacks for settings/mesocycle/sessions/sets are not
taken and the `MESOCYCLE_CREATED` branch for a missing active mesocycle does
not fire).  Identifier draws (`uid()`) are recorded by stream index, in JS
call order. -/
def recommendCore (opts : RecommendOptions) : RecCore :=
  let settings := opts.settings
  let bodyweightKg := jsOrQ opts.bodyweightKg (jsOrQ settings.bodyweightKg 91)
  let dateISO := opts.dateISO
  let st0 : TB := ⟨0, []⟩
  -- 1. mesocycle (provided)
  let mesocycle0 := opts.mesocycle
  -- 2. determine week and day; past end of mesocycle → new cycle
  --    (`createDefaultMesocycle` draws one fresh identifier)
  let step2 : Mesocycle × ℤ × IdRef × TB :=
    match getMesocycleWeek mesocycle0 dateISO with
    | some w => (mesocycle0, w, IdRef.given mesocycle0.mesocycleId, st0)
    | none =>
      let m := createDefaultMesocycle dateISO ""
      let idx := st0.k
      let stA : TB := ⟨st0.k + 1, st0.traces⟩
      let stB := pushTrace stA "MESOCYCLE_NEW_CYCLE" [] [("weekNum", JVal.num 1)]
        (Why.msg "Edellinen mesosykli päättyi → uusi aloitettu")
      (m, 1, IdRef.fresh idx, stB)
  let mesocycle1 := step2.1
  let weekNum1 := step2.2.1
  let mesoRef1 := step2.2.2.1
  let st1 := step2.2.2.2
  let weekDef := getWeekDef mesocycle1 weekNum1
  let dayOfWeek := if jsGetDay dateISO = 0 then 7 else jsGetDay dateISO
  let dayPlan0 := getTodayPlan mesocycle1 weekNum1 dayOfWeek
  let dayType0 := ((dayPlan0.map DayPlan.dayType) <|> opts.dayType).getD DayType.heavy
  let st2 := pushTrace st1 "MESOCYCLE_PHASE" []
    [("weekNum", JVal.num (weekNum1 : ℚ)), ("dayType", JVal.dayT dayType0),
     ("label", match weekDef with | some w => JVal.str w.label | none => JVal.nullv)]
    (Why.phase weekNum1 (weekDef.map WeekDef.label))
  -- 3. break analysis (JS computes weekDef/dayPlan before this step and does
  --    not recompute them after a break reset)
  let lastSession := opts.sessions.getLast?
  let breakInfo := breakAnalysis lastSession dateISO
  let step3 : DayType × ℤ × IdRef × TB :=
    if breakInfo.modifier ≠ 0 then
      let dtSt : DayType × TB :=
        match breakInfo.forcedDayType with
        | some fdt =>
          (fdt, pushTrace st2 "RETURN_FROM_BREAK_DAYTYPE"
            [("dayType", JVal.dayT dayType0)] [("dayType", JVal.dayT fdt)]
            (Why.msg (breakInfo.message.getD "")))
        | none => (dayType0, st2)
      let stB := pushTrace dtSt.2 "RETURN_FROM_BREAK"
        [("modifier", JVal.num 0)]
        [("modifier", JVal.num breakInfo.modifier),
         ("breakDays", match breakInfo.breakDays with
           | some n => JVal.num (n : ℚ)
           | none => JVal.nullv)]
        (Why.msg (breakInfo.message.getD ""))
      let bd := breakInfo.breakDays.getD 0
      if bd ≥ 14 then
        let skippedWeeks := bd / 7
        let resetInfo := mesocycleBreakReset skippedWeeks
        if resetInfo.1 then
          let idx := stB.k
          let stC : TB := ⟨stB.k + 1, stB.traces⟩
          let stD := pushTrace stC "MESOCYCLE_BREAK_RESET" [] [("weekNum", JVal.num 1)]
            (Why.msg (resetInfo.2.getD ""))
          (dtSt.1, 1, IdRef.fresh idx, stD)
        else (dtSt.1, weekNum1, mesoRef1, stB)
      else (dtSt.1, weekNum1, mesoRef1, stB)
    else (dayType0, weekNum1, mesoRef1, st2)
  let dayType1 := step3.1
  let weekNum2 := step3.2.1
  let mesoRef2 := step3.2.2.1
  let st3 := step3.2.2.2
  -- 4. e1RM from recent top sets (sorted by timestamp; `localeCompare` is a
  --    deterministic total order, modelled lexicographically)
  let topSets := jsSort (fun a b => decide (a.timestamp ≤ b.timestamp))
    (opts.allSets.filter (fun s =>
      match opts.primaryMovementId with
      | some pid =>
        if pid ≠ "" ∧ s.movementId ≠ pid then false
        else s.setRole == "top" || s.setRole == "readiness_test"
      | none => s.setRole == "top" || s.setRole == "readiness_test"))
  let recentTopSets := takeLast 6 topSets
  let e1rmValues := (recentTopSets.map (setE1RMEstimate bodyweightKg)).filterMap id
  let currentE1RMSystem := if e1rmValues.length > 0 then some (median e1rmValues) else none
  let currentE1RMExternal := currentE1RMSystem.map (fun m => max 0 (m - bodyweightKg))
  let st4 := pushTrace st3 "E1RM_COMPUTED" []
    [("e1rmSystem", optNumJ currentE1RMSystem),
     ("e1rmExternal", optNumJ currentE1RMExternal),
     ("fromSets", JVal.num (recentTopSets.length : ℚ))]
    (Why.e1rmFromSets recentTopSets.length)
  -- 5. readiness
  let readiness := opts.readiness.getD ⟨RClass.GREEN, 0, none, none, none⟩
  let capLevel := readiness.capLevel
  -- 6. deltaPct raw
  let dayMult := dayTypeMultiplier dayType1
  let base := jsOrQ (weekDef.map WeekDef.deltaPctBase) 0
  let deltaRaw0 := base * dayMult
  let st5 := pushTrace st4 "DELTA_PCT_RAW" [] [("deltaPctRaw", JVal.num deltaRaw0)]
    (Why.deltaRaw base dayMult)
  -- 7. Vara trend correction
  let varaCorr := varaTrendCorrection recentTopSets
  let step7 : ℚ × TB :=
    if varaCorr ≠ 0 then
      (deltaRaw0 + varaCorr, pushTrace st5 "VARA_TREND_CORRECTION"
        [("deltaPct", JVal.num deltaRaw0)]
        [("deltaPct", JVal.num (deltaRaw0 + varaCorr))]
        (Why.varaTrend varaCorr))
    else (deltaRaw0, st5)
  -- 8. break modifier
  let step8 : ℚ × TB :=
    if breakInfo.modifier ≠ 0 then
      (step7.1 + breakInfo.modifier, pushTrace step7.2 "BREAK_MODIFIER"
        [("deltaPct", JVal.num step7.1)]
        [("deltaPct", JVal.num (step7.1 + breakInfo.modifier))]
        (Why.breakMod breakInfo.modifier))
    else step7
  -- 9. clamp
  let maxDelta := jsOrQ settings.maxDelta 0.25
  let delta3 := clamp step8.1 (-maxDelta) maxDelta
  -- 10. readiness cap
  let step10 : ℚ × DayType × TB :=
    if capLevel = 2 then
      let newDelta := min delta3 0
      let dtSt : DayType × TB :=
        if dayType1 = DayType.heavy then
          (DayType.volume, pushTrace step8.2 "CAP_RED_DAYTYPE"
            [("dayType", JVal.dayT dayType1)] [("dayType", JVal.dayT DayType.volume)]
            (Why.msg "RED readiness → heavy vaihdettu volume:ksi"))
        else (dayType1, step8.2)
      (newDelta, dtSt.1, pushTrace dtSt.2 "CAP_RED"
        [("deltaPct", JVal.num delta3)] [("deltaPct", JVal.num newDelta)]
        (Why.msg "RED readiness → deltaPct capped to ≤ 0"))
    else if capLevel = 1 then
      (delta3 * 0.5, dayType1, pushTrace step8.2 "CAP_YELLOW"
        [("deltaPct", JVal.num delta3)] [("deltaPct", JVal.num (delta3 * 0.5))]
        (Why.msg "YELLOW readiness → deltaPct puolitettu"))
    else (delta3, dayType1, step8.2)
  let deltaPct := step10.1
  let dayType2 := step10.2.1
  let st8 := step10.2.2
  -- 11. target reps/effort-distance and target load
  let targets : ℤ × ℤ :=
    match weekDef with
    | some wd =>
      (if dayType2 = DayType.heavy then wd.heavyReps
        else if dayType2 = DayType.volume then 5 else 2,
       if dayType2 = DayType.heavy then wd.heavyTargetVx
        else if dayType2 = DayType.volume then 3 else 4)
    | none => (3, 2)
  let targetReps := targets.1
  let targetVx := targets.2
  let targetExternalLoad :=
    computeTargetExternalLoad currentE1RMSystem targetReps targetVx deltaPct bodyweightKg
  let st9 := pushTrace st8 "TARGET_LOAD" []
    [("targetExternalLoad", optNumJ targetExternalLoad),
     ("deltaPct", JVal.num deltaPct),
     ("targetReps", JVal.num (targetReps : ℚ)),
     ("targetVx", JVal.num (targetVx : ℚ))]
    (Why.targetLoad targetExternalLoad)
  -- 12. set count from the day-type recipe
  let setCount : ℤ :=
    match dayTypeSetRecipes dayType2 with
    | some recipe =>
      match recipe.sets with
      | SetsSpec.single n => n
      | SetsSpec.multi ns => ns.headD 0
    | none => 3
  -- 13. Vara feedback
  let varaFB := varaFeedback recentTopSets
  let stA : TB :=
    match varaFB.suggestion with
    | some sug =>
      pushTrace st9 "VARA_FEEDBACK" []
        [("suggestion", JVal.str sug),
         ("type", match varaFB.fbType with | some t => JVal.str t | none => JVal.nullv)]
        (Why.msg sug)
    | none => st9
  -- 14. accessory cap
  let accCap := accessoryCapActive readiness
  let stB : TB :=
    if accCap then
      pushTrace stA "ACCESSORY_CAP_ACTIVE" [] [("volumeReduction", JVal.str "30%")]
        (Why.msg "3/3 kanavaa RED/YELLOW → tukiliikkeet -30% volyymi")
    else stA
  -- 15. day-plan fallback and accessory-cap application
  let step15 : DayPlan × TB :=
    match dayPlan0 with
    | some dp =>
      if dp.slots.isEmpty then
        let gen := generateDefaultDayPlan dayType2 weekDef accCap
        (gen, pushTrace stB "DAY_PLAN_GENERATED" []
          [("dayType", JVal.dayT dayType2), ("slotsCount", JVal.num (gen.slots.length : ℚ))]
          (Why.msg "Päivän ohjelma generoitu oletusliikkeillä"))
      else (dp, stB)
    | none =>
      let gen := generateDefaultDayPlan dayType2 weekDef accCap
      (gen, pushTrace stB "DAY_PLAN_GENERATED" []
        [("dayType", JVal.dayT dayType2), ("slotsCount", JVal.num (gen.slots.length : ℚ))]
        (Why.msg "Päivän ohjelma generoitu oletusliikkeillä"))
  let dayPlan1 := step15.1
  let stC := step15.2
  let dayPlan2 :=
    if accCap then { dayPlan1 with slots := applyAccessoryCap dayPlan1.slots } else dayPlan1
  { recIdIdx := stC.k
    dateISO := dateISO
    mesocycleId := mesoRef2
    weekNum := weekNum2
    weekLabel := jsOrStr (weekDef.map WeekDef.label) "?"
    dayType := dayType2
    targetExternalLoad := targetExternalLoad
    targetReps := targetReps
    targetVx := targetVx
    setCount := setCount
    deltaPct := deltaPct
    capLevel := capLevel
    readiness := readiness
    e1rmSystem := currentE1RMSystem
    e1rmExternal := currentE1RMExternal
    bodyweightKg := bodyweightKg
    varaFeedback := varaFB
    breakInfo :=
      (match breakInfo.breakDays with
       | some n => if 7 ≤ n then some breakInfo else none
       | none => none)
    accessoryCapActive := accCap
    dayPlan := dayPlan2
    traces := stC.traces }

/-- The recommendation as returned to the caller (engine.js:824-846), with
identifiers materialized from the run's `uid()` stream `u`. -/
structure Rec where
  recId : String
  dateISO : ℤ
  mesocycleId : String
  weekNum : ℤ
  weekLabel : String
  dayType : DayType
  targetExternalLoad : Option ℚ
  targetReps : ℤ
  targetVx : ℤ
  setCount : ℤ
  deltaPct : ℚ
  capLevel : ℕ
  readiness : Readiness
  e1rmSystem : Option ℚ
  e1rmExternal : Option ℚ
  bodyweightKg : ℚ
  varaFeedback : VaraFB
  breakInfo : Option BreakInfo
  accessoryCapActive : Bool
  dayPlan : DayPlan
  traces : List Trace

/-- Materialize one trace entry: `traceId := u(idIdx)` and `recId` back-filled
(engine.js:849). -/
def materializeTrace (u : ℕ → String) (recId : String) (t : TraceCore) : Trace :=
  ⟨u t.idIdx, some recId, t.ruleId, t.before, t.after, t.why⟩

/-- `recommend(options)` (engine.js:610-873) as a function of its inputs and
of the identifier stream `u` feeding `uid()`. -/
def recommend (opts : RecommendOptions) (u : ℕ → String) : Rec :=
  let core := recommendCore opts
  let recId := u core.recIdIdx
  { recId := recId
    dateISO := core.dateISO
    mesocycleId :=
      (match core.mesocycleId with
       | IdRef.fresh k => u k
       | IdRef.given s => s)
    weekNum := core.weekNum
    weekLabel := core.weekLabel
    dayType := core.dayType
    targetExternalLoad := core.targetExternalLoad
    targetReps := core.targetReps
    targetVx := core.targetVx
    setCount := core.setCount
    deltaPct := core.deltaPct
    capLevel := core.capLevel
    readiness := core.readiness
    e1rmSystem := core.e1rmSystem
    e1rmExternal := core.e1rmExternal
    bodyweightKg := core.bodyweightKg
    varaFeedback := core.varaFeedback
    breakInfo := core.breakInfo
    accessoryCapActive := core.accessoryCapActive
    dayPlan := core.dayPlan
    traces := core.traces.map (materializeTrace u recId) }

/-- A trace entry without its generated identifiers: rule identifier,
before/after states and rationale. -/
structure TraceView where
  ruleId : String
  before : TraceObj
  after : TraceObj
  why : Why
deriving DecidableEq, Repr

/-- Drop the generated identifiers from a trace entry. -/
def stripTrace (t : Trace) : TraceView :=
  ⟨t.ruleId, t.before, t.after, t.why⟩

/-- A prescription without its generated identifiers (`recId`, `mesocycleId`,
trace identifiers): every remaining field of the JS recommendation object. -/
structure RecView where
  dateISO : ℤ
  weekNum : ℤ
  weekLabel : String
  dayType : DayType
  targetExternalLoad : Option ℚ
  targetReps : ℤ
  targetVx : ℤ
  setCount : ℤ
  deltaPct : ℚ
  capLevel : ℕ
  readiness : Readiness
  e1rmSystem : Option ℚ
  e1rmExternal : Option ℚ
  bodyweightKg : ℚ
  varaFeedback : VaraFB
  breakInfo : Option BreakInfo
  accessoryCapActive : Bool
  dayPlan : DayPlan
  traces : List TraceView
deriving DecidableEq, Repr

/-- Drop the generated identifiers from a prescription. -/
def stripRec (r : Rec) : RecView :=
  ⟨r.dateISO, r.weekNum, r.weekLabel, r.dayType, r.targetExternalLoad, r.targetReps,
    r.targetVx, r.setCount, r.deltaPct, r.capLevel, r.readiness, r.e1rmSystem,
    r.e1rmExternal, r.bodyweightKg, r.varaFeedback, r.breakInfo, r.accessoryCapActive,
    r.dayPlan, r.traces.map stripTrace⟩

/-- The identifier-free view of a symbolic prescription. -/
def coreView (c : RecCore) : RecView :=
  ⟨c.dateISO, c.weekNum, c.weekLabel, c.dayType, c.targetExternalLoad, c.targetReps,
    c.targetVx, c.setCount, c.deltaPct, c.capLevel, c.readiness, c.e1rmSystem,
    c.e1rmExternal, c.bodyweightKg, c.varaFeedback, c.breakInfo, c.accessoryCapActive,
    c.dayPlan, c.traces.map (fun t => ⟨t.ruleId, t.before, t.after, t.why⟩)⟩

/-- Materialization only fills identifier fields: the stripped view of a run
is the identifier-free view of the symbolic prescription, for every stream. -/
theorem stripRec_recommend (opts : RecommendOptions) (u : ℕ → String) :
    stripRec (recommend opts u) = coreView (recommendCore opts) := by
  unfold recommend stripRec coreView
  simp only [List.map_map]
  rfl

/-- C2: The code's boundary behaviour at the two classification thresholds: the
claim (and the repository's own test suite, test-runner.js `testZClassification`)
says z = −0.50 classifies YELLOW and z = −1.00 classifies RED, but
`classifyReadinessZ` uses `z ≥ −0.5 → GREEN` and `z ≥ −1.0 → YELLOW`, so it
returns GREEN at −0.50 and YELLOW at −1.00. -/
theorem classifyReadinessZ_boundaries_contradict_tests :
    classifyReadinessZ (-0.5) = RClass.GREEN
      ∧ classifyReadinessZ (-1) = RClass.YELLOW
      ∧ classifyReadinessZ (-0.5) ≠ RClass.YELLOW
      ∧ classifyReadinessZ (-1) ≠ RClass.RED := by
  have h1 : classifyReadinessZ (-0.5) = RClass.GREEN := by norm_num [classifyReadinessZ]
  have h2 : classifyReadinessZ (-1) = RClass.YELLOW := by norm_num [classifyReadinessZ]
  exact ⟨h1, h2, by rw [h1]; decide, by rw [h2]; decide⟩

/-- C3: The readiness-cap step of `recommend` transforms the post-clamp
adjustment d as: capLevel 2 yields min(d, 0) and changes a "heavy" day type to
"volume" (other day types unchanged); capLevel 1 yields d/2 (0.025 becomes
0.0125) and leaves the day type; capLevel 0 leaves both unchanged. -/
theorem applyReadinessCap_levels (d : ℚ) (dt : DayType) :
    (applyReadinessCap 2 d dt).deltaPct = min d 0
    ∧ (applyReadinessCap 2 d dt).dayType
        = (if dt = DayType.heavy then DayType.volume else dt)
    ∧ (applyReadinessCap 1 d dt).deltaPct = d / 2
    ∧ (applyReadinessCap 1 d dt).dayType = dt
    ∧ applyReadinessCap 0 d dt = ⟨d, dt⟩
    ∧ (applyReadinessCap 1 0.025 dt).deltaPct = 0.0125 := by
  refine ⟨rfl, rfl, ?_, rfl, rfl, ?_⟩
  · show d * 0.5 = d / 2
    ring
  · show (0.025 : ℚ) * 0.5 = 0.0125
    norm_num

/-- C4: Cap-only invariant: for every post-clamp adjustment d and capLevel in
{0,1,2}, the capped adjustment lies in [min(d,0), max(d,0)], and the only other
effect of the cap is the heavy→volume day-type downgrade on capLevel 2. -/
theorem applyReadinessCap_cap_only (d : ℚ) (dt : DayType) (c : ℕ) (hc : c ≤ 2) :
    min d 0 ≤ (applyReadinessCap c d dt).deltaPct
    ∧ (applyReadinessCap c d dt).deltaPct ≤ max d 0
    ∧ ((applyReadinessCap c d dt).dayType ≠ dt →
        c = 2 ∧ dt = DayType.heavy ∧ (applyReadinessCap c d dt).dayType = DayType.volume) := by
  interval_cases c
  · refine ⟨?_, ?_, ?_⟩
    · show min d 0 ≤ d
      exact min_le_left d 0
    · show d ≤ max d 0
      exact le_max_left d 0
    · intro hne
      exact absurd rfl hne
  · refine ⟨?_, ?_, by simp [applyReadinessCap]⟩
    · show min d 0 ≤ d * 0.5
      rcases le_or_lt d 0 with h | h
      · calc min d 0 = d := min_eq_left h
          _ ≤ d * 0.5 := by nlinarith
      · calc min d 0 = 0 := min_eq_right h.le
          _ ≤ d * 0.5 := by nlinarith
    · show d * 0.5 ≤ max d 0
      rcases le_or_lt d 0 with h | h
      · calc d * 0.5 ≤ 0 := by nlinarith
          _ ≤ max d 0 := le_max_right d 0
      · calc d * 0.5 ≤ d := by nlinarith
          _ ≤ max d 0 := le_max_left d 0
  · refine ⟨?_, ?_, ?_⟩
    · show min d 0 ≤ min d 0
      exact le_refl _
    · show min d 0 ≤ max d 0
      exact (min_le_right d 0).trans (le_max_right d 0)
    · intro hne
      refine ⟨rfl, ?_, ?_⟩
      · by_contra hh
        exact hne (by simp [applyReadinessCap, hh])
      · have hdt : dt = DayType.heavy := by
          by_contra hh
          exact hne (by simp [applyReadinessCap, hh])
        simp [applyReadinessCap, hdt]

/-- C5: `breakAnalysis` returns, as a function of the day difference n between
the current date and the last-session date: n < 7 ⇒ modifier 0, no forced day
type; 7 ≤ n < 14 ⇒ modifier −5%, no forced day type; 14 ≤ n < 28 ⇒ modifier
−10% and forced "volume"; 28 ≤ n ⇒ modifier −15% and forced "volume"; and the
cycle reset of `recommend` is flagged exactly when n ≥ 14. -/
theorem breakAnalysis_thresholds (last today : ℤ) :
    (breakAnalysis (some last) today).breakDays = some (today - last)
    ∧ (today - last < 7 →
        (breakAnalysis (some last) today).modifier = 0
          ∧ (breakAnalysis (some last) today).forcedDayType = none)
    ∧ (7 ≤ today - last → today - last < 14 →
        (breakAnalysis (some last) today).modifier = -0.05
          ∧ (breakAnalysis (some last) today).forcedDayType = none)
    ∧ (14 ≤ today - last → today - last < 28 →
        (breakAnalysis (some last) today).modifier = -0.10
          ∧ (breakAnalysis (some last) today).forcedDayType = some DayType.volume)
    ∧ (28 ≤ today - last →
        (breakAnalysis (some last) today).modifier = -0.15
          ∧ (breakAnalysis (some last) today).forcedDayType = some DayType.volume)
    ∧ (cycleResetFlagged (some last) today = true ↔ 14 ≤ today - last) := by
  refine ⟨?_, ?_, ?_, ?_, ?_, ?_⟩
  · simp only [breakAnalysis]
    split_ifs <;> rfl
  · intro h1
    simp only [breakAnalysis]
    rw [if_pos h1]
    exact ⟨rfl, rfl⟩
  · intro h1 h2
    simp only [breakAnalysis]
    rw [if_neg (by omega), if_pos h2]
    exact ⟨rfl, rfl⟩
  · intro h1 h2
    simp only [breakAnalysis]
    rw [if_neg (by omega), if_neg (by omega), if_pos h2]
    exact ⟨rfl, rfl⟩
  · intro h1
    simp only [breakAnalysis]
    rw [if_neg (by omega), if_neg (by omega), if_neg (by omega)]
    exact ⟨rfl, rfl⟩
  · rcases lt_or_le (today - last) 7 with h1 | h1
    · have h14 : ¬(14 ≤ today - last) := by omega
      simp only [cycleResetFlagged, breakAnalysis, if_pos h1]
      simpa using h14
    · rcases lt_or_le (today - last) 14 with h2 | h2
      · have h14 : ¬(14 ≤ today - last) := by omega
        simp only [cycleResetFlagged, breakAnalysis, if_neg (by omega : ¬today - last < 7),
          if_pos h2]
        constructor
        · intro hflag
          exfalso
          rw [if_pos (by norm_num : (-0.05 : ℚ) ≠ 0)] at hflag
          rw [if_neg (by omega : ¬today - last ≥ 14)] at hflag
          exact Bool.false_ne_true hflag
        · intro h
          exact absurd h h14
      · have hdiv : today - last ≥ 14 := h2
        have hsw : (today - last) / 7 ≥ 2 := by omega
        rcases lt_or_le (today - last) 28 with h3 | h3
        · simp only [cycleResetFlagged, breakAnalysis, if_neg (by omega : ¬today - last < 7),
            if_neg (by omega : ¬today - last < 14), if_pos h3]
          rw [if_pos (by norm_num : (-0.10 : ℚ) ≠ 0), if_pos hdiv]
          unfold mesocycleBreakReset
          rw [if_pos hsw]
          exact ⟨fun _ => h2, fun _ => rfl⟩
        · simp only [cycleResetFlagged, breakAnalysis, if_neg (by omega : ¬today - last < 7),
            if_neg (by omega : ¬today - last < 14), if_neg (by omega : ¬today - last < 28)]
          rw [if_pos (by norm_num : (-0.15 : ℚ) ≠ 0), if_pos hdiv]
          unfold mesocycleBreakReset
          rw [if_pos hsw]
          exact ⟨fun _ => h2, fun _ => rfl⟩

/-- C7: For estimated system max 184, target reps 3, target effort-distance 2,
post-cap adjustment +2.5% and bodyweight 91, the target external load computed
by `recommend`'s inverse step is 70.5: it lies in [69.5, 71.5] and is a
multiple of 0.5. -/
theorem targetLoad_inverse_concrete :
    ∃ q : ℚ, computeTargetExternalLoad (some 184) 3 2 0.025 91 = some q
      ∧ 69.5 ≤ q ∧ q ≤ 71.5 ∧ ∃ k : ℤ, q = (k : ℚ) * 0.5 := by
  have h : computeTargetExternalLoad (some 184) 3 2 0.025 91 = some 70.5 := by
    unfold computeTargetExternalLoad roundToHalf jsRound
    norm_num [max_def]
  exact ⟨70.5, h, by norm_num, by norm_num, 141, by norm_num⟩

/-- C9: `e1rmSystem` returns null exactly when bodyweight + externalLoad ≤ 0
or the rep count is non-positive, and `e1rmAccessory` returns null exactly
when the load ≤ 0 or the rep count is non-positive; on all other inputs each
returns a numeric estimate. -/
theorem e1rm_estimators_null_iff (bw ext loadKg : ℚ) (reps1 reps2 : ℤ) (vara : Option ℚ) :
    (e1rmSystem bw ext reps1 vara = none ↔ bw + ext ≤ 0 ∨ reps1 ≤ 0)
    ∧ (e1rmAccessory loadKg reps2 = none ↔ loadKg ≤ 0 ∨ reps2 ≤ 0)
    ∧ (¬(bw + ext ≤ 0 ∨ reps1 ≤ 0) → ∃ q, e1rmSystem bw ext reps1 vara = some q)
    ∧ (¬(loadKg ≤ 0 ∨ reps2 ≤ 0) → ∃ q, e1rmAccessory loadKg reps2 = some q) := by
  refine ⟨?_, ?_, ?_, ?_⟩
  · simp only [e1rmSystem]
    split_ifs with h
    · rcases h with h | h
      · exact iff_of_true rfl (Or.inl h)
      · exact iff_of_true rfl (Or.inr (by omega))
    · push_neg at h
      constructor
      · intro hx
        exact absurd hx (by simp)
      · intro hr
        rcases hr with hr | hr
        · exact absurd hr (by linarith [h.1])
        · exact absurd hr (by omega)
  · simp only [e1rmAccessory]
    split_ifs with h
    · rcases h with h | h
      · exact iff_of_true rfl (Or.inl h)
      · exact iff_of_true rfl (Or.inr (by omega))
    · push_neg at h
      constructor
      · intro hx
        exact absurd hx (by simp)
      · intro hr
        rcases hr with hr | hr
        · exact absurd hr (by linarith [h.1])
        · exact absurd hr (by omega)
  · intro hn
    push_neg at hn
    simp only [e1rmSystem]
    rw [if_neg (by push_neg; exact ⟨hn.1, by omega⟩)]
    exact ⟨_, rfl⟩
  · intro hn
    push_neg at hn
    simp only [e1rmAccessory]
    rw [if_neg (by push_neg; exact ⟨hn.1, by omega⟩)]
    exact ⟨_, rfl⟩

/-- C6 counterexample: with all three readiness channels individually
classified YELLOW, the claim says the accessory-volume cap is active, but the
combined classification is YELLOW (capLevel 1) and `recommend` computes the
cap only under capLevel 2, so the cap is inactive. -/
theorem accessoryCap_all_yellow_inactive :
    (combineReadiness (some RClass.YELLOW) (some RClass.YELLOW) (some RClass.YELLOW)).velocity
        = some RClass.YELLOW
    ∧ (combineReadiness (some RClass.YELLOW) (some RClass.YELLOW) (some RClass.YELLOW)).hrv
        = some RClass.YELLOW
    ∧ (combineReadiness (some RClass.YELLOW) (some RClass.YELLOW) (some RClass.YELLOW)).vara
        = some RClass.YELLOW
    ∧ (combineReadiness (some RClass.YELLOW) (some RClass.YELLOW) (some RClass.YELLOW)).capLevel
        = 1
    ∧ accessoryCapActive
        (combineReadiness (some RClass.YELLOW) (some RClass.YELLOW) (some RClass.YELLOW))
        = false := by
  decide

/-- C6 (amended): the accessory-volume cap is active iff the combined
readiness capLevel is 2 (RED) and every channel that carries a classification
is YELLOW or RED; when active, every accessory slot's set count becomes
max(2, round(0.7 × sets)) while non-accessory slots are unchanged. -/
theorem accessoryCap_condition_and_effect (rd : Readiness) :
    (accessoryCapActive rd = true ↔
      (rd.capLevel = 2
        ∧ ∀ c ∈ [rd.velocity, rd.hrv, rd.vara].filterMap id,
            c = RClass.RED ∨ c = RClass.YELLOW))
    ∧ (∀ s : Slot, s.role = Role.accessory →
        capSlot s = { s with sets := max 2 (jsRound ((s.sets : ℚ) * 0.7)) })
    ∧ (∀ s : Slot, s.role = Role.primary → capSlot s = s)
    ∧ (∀ slots : List Slot, applyAccessoryCap slots = slots.map capSlot) := by
  refine ⟨?_, ?_, ?_, fun _ => rfl⟩
  · unfold accessoryCapActive
    split_ifs with h
    · simp only [List.all_eq_true, decide_eq_true_eq]
      constructor
      · intro hall
        exact ⟨h, hall⟩
      · intro hall
        exact hall.2
    · constructor
      · intro hx
        exact absurd hx (by simp)
      · intro hx
        exact absurd hx.1 h
  · intro s hs
    unfold capSlot
    rw [if_pos hs]
  · intro s hs
    unfold capSlot
    rw [if_neg (by rw [hs]; exact fun hx => Role.noConfusion hx)]

/-- C10: When a top-effort set has no recorded effort-distance, the engine
substitutes 2: `e1rmSystem` with a null effort-distance equals `e1rmSystem`
with effort-distance 2, the per-set estimated-max step of `recommend` falls
back through actual Vx, target Vx, then 2, and such a set still contributes a
numeric estimate whenever the mass/reps guards pass. -/
theorem effortDistance_default_two (bw ext : ℚ) (reps : ℤ) (s : SetRecord)
    (hA : s.actualVx = none) (hT : s.targetVx = none) :
    e1rmSystem bw ext reps none = e1rmSystem bw ext reps (some 2)
    ∧ setE1RMEstimate bw s
        = e1rmSystem bw (jsOrQ s.externalLoadKg 0)
            (jsOrInt s.reps (jsOrInt s.targetReps 3)) (some 2)
    ∧ (0 < bw + jsOrQ s.externalLoadKg 0 →
        1 ≤ jsOrInt s.reps (jsOrInt s.targetReps 3) →
        ∃ q, setE1RMEstimate bw s = some q) := by
  have h2 : setE1RMEstimate bw s
      = e1rmSystem bw (jsOrQ s.externalLoadKg 0)
          (jsOrInt s.reps (jsOrInt s.targetReps 3)) (some 2) := by
    unfold setE1RMEstimate
    rw [hA, hT]
    rfl
  refine ⟨rfl, h2, ?_⟩
  intro hload hreps
  rw [h2]
  simp only [e1rmSystem]
  rw [if_neg (by push_neg; exact ⟨by linarith, by omega⟩)]
  exact ⟨_, rfl⟩

/-- Witness for C10: a concrete top set with load 67, 3 reps and no recorded
effort-distance. -/
theorem effortDistance_default_two_witness :
    e1rmSystem 91 67 3 none = e1rmSystem 91 67 3 (some 2)
    ∧ setE1RMEstimate 91 ⟨"mv", "top", "t0", some 67, some 3, some 3, none, none⟩
        = e1rmSystem 91 (jsOrQ (some 67) 0) (jsOrInt (some 3) (jsOrInt (some 3) 3)) (some 2)
    ∧ (0 < 91 + jsOrQ (some 67) 0 →
        1 ≤ jsOrInt (some 3) (jsOrInt (some 3) 3) →
        ∃ q, setE1RMEstimate 91 ⟨"mv", "top", "t0", some 67, some 3, some 3, none, none⟩
          = some q) :=
  effortDistance_default_two 91 67 3 ⟨"mv", "top", "t0", some 67, some 3, some 3, none, none⟩
    rfl rfl

/-- C8: Determinism of the orchestrator: two `recommend` runs on identical
inputs (date, settings, bodyweight, mesocycle, sessions, sets, readiness)
differing only in their generated-identifier streams produce prescriptions
equal in every field except the freshly generated identifiers, the same
ordered trace sequence (rule identifiers, before/after states, rationales),
and a mesocycle identifier that is either the same given one or freshly drawn
from each run's own stream. -/
theorem recommend_deterministic (opts : RecommendOptions) (u1 u2 : ℕ → String) :
    stripRec (recommend opts u1) = stripRec (recommend opts u2)
    ∧ (recommend opts u1).traces.map stripTrace = (recommend opts u2).traces.map stripTrace
    ∧ ((recommend opts u1).mesocycleId = (recommend opts u2).mesocycleId
        ∨ ∃ k1 k2 : ℕ, (recommend opts u1).mesocycleId = u1 k1
            ∧ (recommend opts u2).mesocycleId = u2 k2) := by
  refine ⟨?_, ?_, ?_⟩
  · rw [stripRec_recommend, stripRec_recommend]
  · exact congrArg RecView.traces
      ((stripRec_recommend opts u1).trans (stripRec_recommend opts u2).symm)
  · cases h : (recommendCore opts).mesocycleId with
    | fresh k =>
      right
      refine ⟨k, k, ?_, ?_⟩
      · show (match (recommendCore opts).mesocycleId with
          | IdRef.fresh j => u1 j
          | IdRef.given s => s) = u1 k
        rw [h]
      · show (match (recommendCore opts).mesocycleId with
          | IdRef.fresh j => u2 j
          | IdRef.given s => s) = u2 k
        rw [h]
    | given s =>
      left
      show (match (recommendCore opts).mesocycleId with
          | IdRef.fresh j => u1 j
          | IdRef.given s => s)
        = (match (recommendCore opts).mesocycleId with
          | IdRef.fresh j => u2 j
          | IdRef.given s => s)
      rw [h]

/-- Witness for C4 at capLevel 1, d = 0.025, day type heavy. -/
theorem applyReadinessCap_cap_only_witness :
    min (0.025 : ℚ) 0 ≤ (applyReadinessCap 1 0.025 DayType.heavy).deltaPct
    ∧ (applyReadinessCap 1 0.025 DayType.heavy).deltaPct ≤ max (0.025 : ℚ) 0
    ∧ ((applyReadinessCap 1 0.025 DayType.heavy).dayType ≠ DayType.heavy →
        (1 : ℕ) = 2 ∧ DayType.heavy = DayType.heavy
          ∧ (applyReadinessCap 1 0.025 DayType.heavy).dayType = DayType.volume) :=
  applyReadinessCap_cap_only 0.025 DayType.heavy 1 (by norm_num)

end LeVe
